import Mathlib

/-!
# Verification of the lnurlauth-demo server and client cores

Shallow embedding of the LNURL-auth demo repository:

* the server-side protocol engine `Auth` (final draft: `sessionCache`,
  `challengeCache`, `reverseChallengeCache` over `go-cache`), with
  `Middleware`, `k1BySessionID`, `Login`, `Logout`, `LinkingKey`;
* the earlier two-cache draft of the `/login` handler (`Auth.Login` in the
  draft with a `gin.Context`) and the oldest draft (`LNURLAuth.Login` in
  `cmd/server/internal/auth.go`), both of which write HTTP responses and
  fall through after writing an error;
* the client-side deterministic key deriver `deriveLinkingKey` of
  `cmd/client/cmd/auth.go`, embedded parametrically over the external
  BIP-32 / HMAC primitives.

Caches are embedded as functions `String → Option String`: the Go caches
only ever store `string` values under `string` keys in these code paths,
and no expiry elapses within any single property considered here, so the
TTL machinery of `go-cache` is not modelled.  `cache.Get` is application,
`cache.Set` is pointwise update, `cache.Delete` is pointwise removal and
`cache.Add` fails exactly when the key is already present, mirroring the
library's behaviour for unexpired entries.
-/

namespace LnurlAuth

/-- A `go-cache` instance holding `string` values, as used by `Auth`. -/
def Cache := String → Option String

/-- The empty cache (state of a fresh `cache.New`). -/
def Cache.empty : Cache := fun _ => none

/-- `cache.Set`: unconditional insert/overwrite. -/
def Cache.set (c : Cache) (k v : String) : Cache :=
  fun x => if x = k then some v else c x

/-- `cache.Delete`: remove the entry for `k` if any. -/
def Cache.del (c : Cache) (k : String) : Cache :=
  fun x => if x = k then none else c x

/-- `cache.Add`: error when an (unexpired) item already exists for `k`,
otherwise insert. The Go library formats the error as
`"Item <k> already exists"`. -/
def Cache.add (c : Cache) (k v : String) : Except String Cache :=
  match c k with
  | some _ => .error ("Item " ++ k ++ " already exists")
  | none => .ok (c.set k v)

/-- State of the final server draft's `Auth` service: the three caches
created by `NewAuth`. -/
structure AuthState where
  sessionCache : Cache
  challengeCache : Cache
  reverseChallengeCache : Cache

/-- The state `NewAuth` returns: all three caches empty. -/
def NewAuth : AuthState := ⟨Cache.empty, Cache.empty, Cache.empty⟩

/-- Outcome of `lnurl.VerifySignature(k1, sig, key)`: a Go `(bool, error)`
pair where a non-nil error short-circuits. The verifier is an external
primitive, so it is a parameter of the operations that call it. -/
def Verifier : Type := String → String → String → Except String Bool

/-- `Auth.k1BySessionID` (final draft): return the previously issued `k1`
for `sessionID` from the reverse cache if present; otherwise insert the
freshly randomized `k1` (`freshK1` stands for the value produced by
`random32BytesHex`) into the forward cache and then into the reverse
cache, returning the error of the first failing `Add`. On the first
`Add`'s failure no cache has been touched; on the second `Add`'s failure
the forward insertion has already happened (it is mutation in place in
Go), which is reflected verbatim here. -/
def k1BySessionID (a : AuthState) (sessionID : String) (freshK1 : String) :
    AuthState × Except String String :=
  match a.reverseChallengeCache sessionID with
  | some k1 => (a, .ok k1)
  | none =>
    match a.challengeCache.add freshK1 sessionID with
    | .error e => (a, .error e)
    | .ok cc =>
      match a.reverseChallengeCache.add sessionID freshK1 with
      | .error e => ({ a with challengeCache := cc }, .error e)
      | .ok rc =>
        ({ a with challengeCache := cc, reverseChallengeCache := rc },
          .ok freshK1)

/-- `Auth.Login` (final draft, the `func (a *Auth) Login(k1, linkingKey,
signature string) error` version): resolve the session bound to `k1`,
verify the signature, and on success set the linking key for the session
and delete both challenge mappings. -/
def Login (verify : Verifier) (a : AuthState)
    (k1 linkingKey signature : String) : AuthState × Except String Unit :=
  match a.challengeCache k1 with
  | none => (a, .error "no session id found for this k1 challenge")
  | some sessionID =>
    match verify k1 signature linkingKey with
    | .error e => (a, .error e)
    | .ok false => (a, .error "invalid signature")
    | .ok true =>
      ({ sessionCache := a.sessionCache.set sessionID linkingKey,
         challengeCache := a.challengeCache.del k1,
         reverseChallengeCache := a.reverseChallengeCache.del sessionID },
        .ok ())

/-- `Auth.Logout`: delete the session's entry from the session cache. -/
def Logout (a : AuthState) (sessionID : String) : AuthState :=
  { a with sessionCache := a.sessionCache.del sessionID }

/-- `Auth.LinkingKey`: read the session cache, returning `("", false)` on a
miss as the Go function does. -/
def LinkingKey (a : AuthState) (sessionID : String) : String × Bool :=
  match a.sessionCache sessionID with
  | none => ("", false)
  | some linkingKey => (linkingKey, true)

/-- The constant `sessionIDContextKey = "session_id"` of the server. -/
def sessionIDContextKey : String := "session_id"

/-- What `Auth.Middleware` communicates to the rest of the request
pipeline: the `session_id` and `linking_key` entries it `c.Set`s on the
request context, and the fresh session id it sends back in a `Set-Cookie`
header, if any. -/
structure MiddlewareResult where
  ctxSessionID : Option String
  ctxLinkingKey : Option String
  newCookie : Option String
  deriving DecidableEq

/-- `Auth.Middleware` (identical in the final and two-cache drafts).
`cookie` is the result of `c.Cookie(sessionKey)` (`none` when the request
carries no session cookie) and `freshID` stands for the value
`random32BytesHex` produces when a new session id is minted.  When a
cookie is present the code executes
`c.Set(sessionIDContextKey, sessionIDContextKey)`, i.e. it stores the
constant string `"session_id"` — not the cookie's value — in the request
context, and then looks the cookie value up in the session cache. -/
def Middleware (a : AuthState) (cookie : Option String) (freshID : String) :
    MiddlewareResult :=
  match cookie with
  | none =>
    { ctxSessionID := some freshID, ctxLinkingKey := none,
      newCookie := some freshID }
  | some sessionID =>
    let lk := LinkingKey a sessionID
    { ctxSessionID := some sessionIDContextKey,
      ctxLinkingKey := if lk.2 then some lk.1 else none,
      newCookie := none }

/-! ## The two-cache draft (`Auth` with a `gin.Context`-handler `Login`)

This earlier draft of the server keeps only `sessionCache` and
`challengeCache` and its `Login` is itself the HTTP handler.  After a
failed challenge lookup (and after the subsequent failed type assertion
on the `nil` interface value) it writes an error response but does not
`return`, so execution falls through with `sessionID` left at its zero
value `""`. -/

/-- A response written by `c.JSON`: HTTP status code plus the
`LNURLAuthResponse` body (`status`, `reason`). -/
structure Resp where
  code : Nat
  status : String
  reason : String
  deriving DecidableEq

/-- `createErrorResponse` rendered with a status code. -/
def errResp (code : Nat) (reason : String) : Resp := ⟨code, "ERROR", reason⟩

/-- The `{status: "OK"}` success response. -/
def okResp : Resp := ⟨200, "OK", ""⟩

/-- State of the two-cache draft `Auth`. -/
structure Auth6State where
  sessionCache : Cache
  challengeCache : Cache

/-- The two-cache draft's `Auth.Login` handler.  The embedding returns the
new state and the list of responses written to the context, in order.
In the branch where `challengeCache.Get(k1)` misses, the Go code writes
the 400 error, falls through, fails the `string` type assertion on the
`nil` interface (writing the 500 error) and continues with
`sessionID = ""`; if signature verification then succeeds it executes
`sessionCache.Set("", linkingKey)` and writes the OK response. -/
def LoginHandlerDraft6 (verify : Verifier) (a : Auth6State)
    (tag k1 key sig : String) : Auth6State × List Resp :=
  if tag ≠ "login" then
    (a, [errResp 400 "query parameter `tag` is not 'login'"])
  else
    match a.challengeCache k1 with
    | some sessionID =>
      match verify k1 sig key with
      | .error e => (a, [errResp 400 e])
      | .ok false => (a, [errResp 400 "invalid signature"])
      | .ok true =>
        ({ a with sessionCache := a.sessionCache.set sessionID key },
          [okResp])
    | none =>
      let pre := [errResp 400 "no session id found for this k1 challenge",
                  errResp 500 "unexpected session id with invalid type"]
      match verify k1 sig key with
      | .error e => (a, pre ++ [errResp 400 e])
      | .ok false => (a, pre ++ [errResp 400 "invalid signature"])
      | .ok true =>
        ({ a with sessionCache := a.sessionCache.set "" key },
          pre ++ [okResp])

/-! ## The oldest draft (`LNURLAuth` in `cmd/server/internal/auth.go`)

Its `Login` handler never consults the challenge cache (the lookup is
only a `// check k1 in cache` comment) and, when signature verification
returns `false`, writes the invalid-signature error response and then
falls through — without a `return` — to also write the OK response. -/

/-- `LNURLAuth.Login` of `cmd/server/internal/auth.go`.  The caches of the
`LNURLAuth` receiver are never touched by this handler, so only the
written responses are returned. -/
def LoginHandlerInternal (verify : Verifier) (tag k1 key sig : String) :
    List Resp :=
  if tag ≠ "login" then
    [errResp 400 "query parameter `tag` is not 'login'"]
  else
    match verify k1 sig key with
    | .error e => [errResp 400 e]
    | .ok false => [errResp 400 "invalid signature", okResp]
    | .ok true => [okResp]

/-! ## Reachable store states of the final draft

`Reach` closes the initial `NewAuth` state under the state-changing
operations of the final draft: challenge issuance (`k1BySessionID`, the
only state-touching part of `Auth.Challenge`), `Login` (under an
arbitrary verifier outcome), and `Logout`.  `Middleware` and `LinkingKey`
do not modify the caches. -/

inductive Reach : AuthState → Prop
  | init : Reach NewAuth
  | challenge (a : AuthState) (sid fresh : String) :
      Reach a → Reach (k1BySessionID a sid fresh).1
  | login (verify : Verifier) (a : AuthState) (k1 key sig : String) :
      Reach a → Reach (Login verify a k1 key sig).1
  | logout (a : AuthState) (sid : String) :
      Reach a → Reach (Logout a sid)

/-- The two challenge mappings are partners of each other: the forward
cache maps `k1` to `s` exactly when the reverse cache maps `s` to `k1`. -/
def Paired (a : AuthState) : Prop :=
  ∀ k s : String,
    a.challengeCache k = some s ↔ a.reverseChallengeCache s = some k

/-! ## Client-side deterministic key derivation (`cmd/client/cmd/auth.go`)

`deriveLinkingKey` is embedded parametrically over the external BIP-32
and HMAC primitives it calls (`bip32.NewMasterKey`, `Key.NewChildKey`,
`hmac.New(sha256.New, …)`, `btcec.PrivKeyFromBytes`): the bundle
`DeriveEnv κ π` supplies them, with `κ` the type of `*bip32.Key` values
and `π` the type of the resulting `(*btcec.PrivateKey, *btcec.PublicKey)`
pair.  A `none` result models the run-time fault the Go code would hit
when a discarded derivation error leaves a `nil` key that is then
dereferenced. -/

/-- External primitives used by `deriveLinkingKey`. -/
structure DeriveEnv (κ π : Type) where
  newMasterKey : List Nat → Option κ
  newChildKey : κ → Nat → Option κ
  keyBytes : κ → List Nat
  hmacSHA256 : List Nat → List Nat → List Nat
  privKeyFromBytes : List Nat → π

/-- `bip32.FirstHardenedChild = 0x80000000`. -/
def firstHardenedChild : Nat := 2 ^ 31

/-- `binary.BigEndian.Uint32(digest[i:i+4])`. -/
def beUint32At (digest : List Nat) (i : Nat) : Nat :=
  digest.getD i 0 * 2 ^ 24 + digest.getD (i + 1) 0 * 2 ^ 16 +
    digest.getD (i + 2) 0 * 2 ^ 8 + digest.getD (i + 3) 0

/-- `[]byte(domain)`: the UTF-8 bytes of the domain string. -/
def strBytes (s : String) : List Nat := s.toUTF8.toList.map (fun b => b.toNat)

/-- The hashing-key node of `deriveLinkingKey` (lines 148–150 of
`cmd/client/cmd/auth.go`): master key from the seed, hardened child at
`0x80000000 + 138`, then child at the plain index `0`. -/
def hashingKey {κ π : Type} (env : DeriveEnv κ π) (seed : List Nat) :
    Option κ :=
  (env.newMasterKey seed).bind fun masterKey =>
    (env.newChildKey masterKey (firstHardenedChild + 138)).bind
      fun authMasterKey => env.newChildKey authMasterKey 0

/-- Modelled from the spec: the spec's §4.4 step 3 describes the hashing
key as a *hardened* child at index `0` of the auth node, i.e. a child at
raw index `0x80000000 + 0`.  (Definition written from the spec's words,
for comparison with `hashingKey`, which is written from the code.) -/
def hashingKeySpecHardened {κ π : Type} (env : DeriveEnv κ π)
    (seed : List Nat) : Option κ :=
  (env.newMasterKey seed).bind fun masterKey =>
    (env.newChildKey masterKey (firstHardenedChild + 138)).bind
      fun authMasterKey => env.newChildKey authMasterKey (firstHardenedChild + 0)

/-- `deriveLinkingKey(seed, domain)`: derive `m/138'/0` as the HMAC key,
hash the domain, split the digest into four big-endian 32-bit indices and
walk four child derivations from the `m/138'` node. -/
def deriveLinkingKey {κ π : Type} (env : DeriveEnv κ π) (seed : List Nat)
    (domain : String) : Option π := do
  let masterKey ← env.newMasterKey seed
  let authMasterKey ← env.newChildKey masterKey (firstHardenedChild + 138)
  let hk ← env.newChildKey authMasterKey 0
  let digest := env.hmacSHA256 (env.keyBytes hk) (strBytes domain)
  let childIndex1 := beUint32At digest 0
  let childIndex2 := beUint32At digest 4
  let childIndex3 := beUint32At digest 8
  let childIndex4 := beUint32At digest 12
  let k1 ← env.newChildKey authMasterKey childIndex1
  let k2 ← env.newChildKey k1 childIndex2
  let k3 ← env.newChildKey k2 childIndex3
  let k4 ← env.newChildKey k3 childIndex4
  return env.privKeyFromBytes (env.keyBytes k4)

/-- The symbolic BIP-32 key: a node identified by its derivation path.
Used to observe which derivation calls `deriveLinkingKey` makes. -/
structure PathKey where
  path : List Nat
  deriving DecidableEq

/-- The path-collecting instantiation of the primitives: the master key is
the empty path and each child derivation appends its index. -/
def freeEnv : DeriveEnv PathKey (List Nat) :=
  { newMasterKey := fun _ => some ⟨[]⟩
    newChildKey := fun k i => some ⟨k.path ++ [i]⟩
    keyBytes := fun k => k.path
    hmacSHA256 := fun _ _ => []
    privKeyFromBytes := fun bs => bs }

/-- The stream of bytes `crypto/rand.Reader` yields to the client
process. -/
def RandStream : Type := Nat → Nat

/-- The external signing primitive `privateKey.ToECDSA().Sign(rand.Reader,
k1Bytes, nil)`: it consumes process randomness. -/
def SignPrim (π σ : Type) : Type := π → List Nat → RandStream → σ

/-- The identity-producing portion of the client `auth` command: derive
the linking key pair for `(seed, domain)`, then sign the challenge bytes
using the process randomness `rand`.  The randomness is consumed only by
the signing step; `deriveLinkingKey` does not receive it. -/
def authIdentity {κ π σ : Type} (env : DeriveEnv κ π) (sign : SignPrim π σ)
    (rand : RandStream) (seed : List Nat) (domain : String)
    (k1Bytes : List Nat) : Option (π × σ) := do
  let keyPair ← deriveLinkingKey env seed domain
  return (keyPair, sign keyPair k1Bytes rand)

/-! ## Theorems -/

/-- C1: with an outstanding challenge `k1` bound to session `sid`, a
`Login` whose signature verifies succeeds, deletes both the
`k1 → sessionID` and the `sessionID → k1` mapping on the spot, and an
immediate replay of the identical `Login` request fails with the
unknown-challenge error and leaves the state as it was. -/
theorem login_single_use (verify : Verifier) (a : AuthState)
    (k1 key sig sid : String)
    (hch : a.challengeCache k1 = some sid)
    (hv : verify k1 sig key = .ok true) :
    (Login verify a k1 key sig).2 = .ok () ∧
    (Login verify a k1 key sig).1.challengeCache k1 = none ∧
    (Login verify a k1 key sig).1.reverseChallengeCache sid = none ∧
    Login verify (Login verify a k1 key sig).1 k1 key sig =
      ((Login verify a k1 key sig).1,
        .error "no session id found for this k1 challenge") := by
  refine ⟨?_, ?_, ?_, ?_⟩
  · simp [Login, hch, hv]
  · simp [Login, hch, hv, Cache.del]
  · simp [Login, hch, hv, Cache.del]
  · simp [Login, hch, hv, Cache.del]

theorem login_single_use_witness :
    (Login (fun _ _ _ => .ok true)
        ⟨Cache.empty, Cache.empty.set "chal" "sess",
          Cache.empty.set "sess" "chal"⟩ "chal" "key" "sig").2 = .ok () ∧
    (Login (fun _ _ _ => .ok true)
        ⟨Cache.empty, Cache.empty.set "chal" "sess",
          Cache.empty.set "sess" "chal"⟩ "chal" "key"
        "sig").1.challengeCache "chal" = none ∧
    (Login (fun _ _ _ => .ok true)
        ⟨Cache.empty, Cache.empty.set "chal" "sess",
          Cache.empty.set "sess" "chal"⟩ "chal" "key"
        "sig").1.reverseChallengeCache "sess" = none ∧
    Login (fun _ _ _ => .ok true)
        (Login (fun _ _ _ => .ok true)
          ⟨Cache.empty, Cache.empty.set "chal" "sess",
            Cache.empty.set "sess" "chal"⟩ "chal" "key" "sig").1
        "chal" "key" "sig" =
      ((Login (fun _ _ _ => .ok true)
          ⟨Cache.empty, Cache.empty.set "chal" "sess",
            Cache.empty.set "sess" "chal"⟩ "chal" "key" "sig").1,
        .error "no session id found for this k1 challenge") :=
  login_single_use (fun _ _ _ => .ok true)
    ⟨Cache.empty, Cache.empty.set "chal" "sess", Cache.empty.set "sess" "chal"⟩
    "chal" "key" "sig" "sess" (by decide) rfl

/-- C4: if a challenge request for `sid` succeeded with `k1` (whether it
found a live challenge or issued a fresh one), then a second challenge
request for the same session — before any login — returns the same `k1`
and leaves the state unchanged, whatever fresh random value the second
call drew. -/
theorem challenge_idempotent (a a' : AuthState)
    (sid fresh1 fresh2 k1 : String)
    (h : k1BySessionID a sid fresh1 = (a', Except.ok k1)) :
    k1BySessionID a' sid fresh2 = (a', Except.ok k1) := by
  unfold k1BySessionID at h ⊢
  cases hrv : a.reverseChallengeCache sid with
  | some k0 =>
    rw [hrv] at h
    obtain ⟨rfl, hk⟩ := Prod.mk.injEq .. ▸ h
    obtain rfl : k0 = k1 := by simpa using hk
    rw [hrv]
  | none =>
    rw [hrv] at h
    unfold Cache.add at h ⊢
    cases hcc : a.challengeCache fresh1 with
    | some s0 => rw [hcc] at h; simp at h
    | none =>
      rw [hcc, hrv] at h
      obtain ⟨rfl, hk⟩ := Prod.mk.injEq .. ▸ h
      obtain rfl : fresh1 = k1 := by simpa using hk
      simp [Cache.set]

theorem challenge_idempotent_witness :
    k1BySessionID
        ⟨Cache.empty, Cache.empty.set "chal" "sess",
          Cache.empty.set "sess" "chal"⟩ "sess" "other" =
      (⟨Cache.empty, Cache.empty.set "chal" "sess",
          Cache.empty.set "sess" "chal"⟩, Except.ok "chal") :=
  challenge_idempotent NewAuth
    ⟨Cache.empty, Cache.empty.set "chal" "sess", Cache.empty.set "sess" "chal"⟩
    "sess" "chal" "other" "chal" rfl

/-- C9: `Logout sid` leaves both challenge caches untouched (for `sid` and
every other session alike), makes `LinkingKey` report the session as
anonymous, and does not change the linking key of any other session. -/
theorem logout_only_removes_linking_key (a : AuthState) (sid s : String)
    (hs : s ≠ sid) :
    (Logout a sid).challengeCache = a.challengeCache ∧
    (Logout a sid).reverseChallengeCache = a.reverseChallengeCache ∧
    LinkingKey (Logout a sid) sid = ("", false) ∧
    LinkingKey (Logout a sid) s = LinkingKey a s := by
  refine ⟨rfl, rfl, ?_, ?_⟩
  · simp [Logout, LinkingKey, Cache.del]
  · simp [Logout, LinkingKey, Cache.del, hs]

theorem logout_only_removes_linking_key_witness :
    (Logout ⟨Cache.empty.set "sess" "key1", Cache.empty.set "chal" "sess2",
        Cache.empty.set "sess2" "chal"⟩ "sess").challengeCache =
      (⟨Cache.empty.set "sess" "key1", Cache.empty.set "chal" "sess2",
        Cache.empty.set "sess2" "chal"⟩ : AuthState).challengeCache ∧
    (Logout ⟨Cache.empty.set "sess" "key1", Cache.empty.set "chal" "sess2",
        Cache.empty.set "sess2" "chal"⟩ "sess").reverseChallengeCache =
      (⟨Cache.empty.set "sess" "key1", Cache.empty.set "chal" "sess2",
        Cache.empty.set "sess2" "chal"⟩ : AuthState).reverseChallengeCache ∧
    LinkingKey (Logout ⟨Cache.empty.set "sess" "key1",
        Cache.empty.set "chal" "sess2",
        Cache.empty.set "sess2" "chal"⟩ "sess") "sess" = ("", false) ∧
    LinkingKey (Logout ⟨Cache.empty.set "sess" "key1",
        Cache.empty.set "chal" "sess2",
        Cache.empty.set "sess2" "chal"⟩ "sess") "sess2" =
      LinkingKey ⟨Cache.empty.set "sess" "key1",
        Cache.empty.set "chal" "sess2",
        Cache.empty.set "sess2" "chal"⟩ "sess2" :=
  logout_only_removes_linking_key
    ⟨Cache.empty.set "sess" "key1", Cache.empty.set "chal" "sess2",
      Cache.empty.set "sess2" "chal"⟩ "sess" "sess2" (by decide)

/-- `k1BySessionID` on a session with a live reverse mapping: the existing
`k1` is returned and nothing changes. -/
theorem k1BySessionID_existing (a : AuthState) (sid fresh k1 : String)
    (h : a.reverseChallengeCache sid = some k1) :
    k1BySessionID a sid fresh = (a, .ok k1) := by
  simp [k1BySessionID, h]

/-- `k1BySessionID` on a session without a live challenge, when the fresh
`k1` collides with an existing forward entry: the first `Add` fails and
nothing changes. -/
theorem k1BySessionID_collision (a : AuthState) (sid fresh s0 : String)
    (h1 : a.reverseChallengeCache sid = none)
    (h2 : a.challengeCache fresh = some s0) :
    k1BySessionID a sid fresh =
      (a, .error ("Item " ++ fresh ++ " already exists")) := by
  simp [k1BySessionID, Cache.add, h1, h2]

/-- `k1BySessionID` on a session without a live challenge and a
non-colliding fresh `k1`: both mappings are inserted. -/
theorem k1BySessionID_fresh (a : AuthState) (sid fresh : String)
    (h1 : a.reverseChallengeCache sid = none)
    (h2 : a.challengeCache fresh = none) :
    k1BySessionID a sid fresh =
      ({ a with challengeCache := a.challengeCache.set fresh sid,
                reverseChallengeCache :=
                  a.reverseChallengeCache.set sid fresh },
        .ok fresh) := by
  simp [k1BySessionID, Cache.add, h1, h2]

/-- `Login` with an unknown `k1` fails without changing anything. -/
theorem login_unknown_challenge (verify : Verifier) (a : AuthState)
    (k1 key sig : String) (hch : a.challengeCache k1 = none) :
    Login verify a k1 key sig =
      (a, .error "no session id found for this k1 challenge") := by
  simp [Login, hch]

/-- `Login` when the verifier returns a non-nil error: the error is
propagated and nothing changes. -/
theorem login_verifier_error (verify : Verifier) (a : AuthState)
    (k1 key sig sid e : String) (hch : a.challengeCache k1 = some sid)
    (hv : verify k1 sig key = .error e) :
    Login verify a k1 key sig = (a, .error e) := by
  simp [Login, hch, hv]

/-- `Login` when the signature does not verify: the invalid-signature
error is returned and nothing changes. -/
theorem login_invalid_signature (verify : Verifier) (a : AuthState)
    (k1 key sig sid : String) (hch : a.challengeCache k1 = some sid)
    (hv : verify k1 sig key = .ok false) :
    Login verify a k1 key sig = (a, .error "invalid signature") := by
  simp [Login, hch, hv]

/-- `Login` on success: the linking key is bound and both challenge
mappings are deleted. -/
theorem login_success_state (verify : Verifier) (a : AuthState)
    (k1 key sig sid : String) (hch : a.challengeCache k1 = some sid)
    (hv : verify k1 sig key = .ok true) :
    Login verify a k1 key sig =
      ({ sessionCache := a.sessionCache.set sid key,
         challengeCache := a.challengeCache.del k1,
         reverseChallengeCache := a.reverseChallengeCache.del sid },
        .ok ()) := by
  simp [Login, hch, hv]

/-- `NewAuth` starts with both challenge caches empty, hence paired. -/
theorem paired_newAuth : Paired NewAuth := by
  intro k s
  simp [NewAuth, Cache.empty]

/-- Challenge issuance preserves the pairing of the two challenge
caches. -/
theorem paired_k1BySessionID (a : AuthState) (sid fresh : String)
    (hp : Paired a) : Paired (k1BySessionID a sid fresh).1 := by
  cases hrv : a.reverseChallengeCache sid with
  | some k0 =>
    rw [k1BySessionID_existing a sid fresh k0 hrv]
    exact hp
  | none =>
    cases hcc : a.challengeCache fresh with
    | some s0 =>
      rw [k1BySessionID_collision a sid fresh s0 hrv hcc]
      exact hp
    | none =>
      rw [k1BySessionID_fresh a sid fresh hrv hcc]
      intro k s
      show (if k = fresh then some sid else a.challengeCache k) = some s ↔
        (if s = sid then some fresh else a.reverseChallengeCache s) = some k
      by_cases hk : k = fresh
      · subst hk
        rw [if_pos rfl]
        by_cases hs : s = sid
        · subst hs
          rw [if_pos rfl]
          simp
        · rw [if_neg hs]
          constructor
          · intro h
            exact absurd (Option.some.inj h).symm hs
          · intro h
            have hcf := (hp k s).mpr h
            rw [hcc] at hcf
            simp at hcf
      · rw [if_neg hk]
        by_cases hs : s = sid
        · subst hs
          rw [if_pos rfl]
          constructor
          · intro h
            have hrs := (hp k s).mp h
            rw [hrv] at hrs
            simp at hrs
          · intro h
            exact absurd (Option.some.inj h).symm hk
        · rw [if_neg hs]
          exact hp k s

/-- Login preserves the pairing of the two challenge caches. -/
theorem paired_login (verify : Verifier) (a : AuthState)
    (k1 key sig : String) (hp : Paired a) :
    Paired (Login verify a k1 key sig).1 := by
  cases hch : a.challengeCache k1 with
  | none =>
    rw [login_unknown_challenge verify a k1 key sig hch]
    exact hp
  | some sid =>
    cases hv : verify k1 sig key with
    | error e =>
      rw [login_verifier_error verify a k1 key sig sid e hch hv]
      exact hp
    | ok b =>
      cases b with
      | false =>
        rw [login_invalid_signature verify a k1 key sig sid hch hv]
        exact hp
      | true =>
        rw [login_success_state verify a k1 key sig sid hch hv]
        have hrv : a.reverseChallengeCache sid = some k1 := (hp k1 sid).mp hch
        intro k s
        show (if k = k1 then none else a.challengeCache k) = some s ↔
          (if s = sid then none else a.reverseChallengeCache s) = some k
        by_cases hk : k = k1
        · rw [if_pos hk]
          constructor
          · intro h
            simp at h
          · intro h
            by_cases hs : s = sid
            · rw [if_pos hs] at h
              simp at h
            · rw [if_neg hs] at h
              have hcs := (hp k1 s).mpr (hk ▸ h)
              rw [hch] at hcs
              exact absurd (Option.some.inj hcs).symm hs
        · rw [if_neg hk]
          by_cases hs : s = sid
          · rw [if_pos hs]
            constructor
            · intro h
              have hrs := (hp k sid).mp (hs ▸ h)
              rw [hrv] at hrs
              exact absurd (Option.some.inj hrs).symm hk
            · intro h
              simp at h
          · rw [if_neg hs]
            exact hp k s

/-- Logout does not touch the challenge caches. -/
theorem paired_logout (a : AuthState) (sid : String) (hp : Paired a) :
    Paired (Logout a sid) := hp

/-- Every reachable store state has paired challenge caches. -/
theorem reach_paired (a : AuthState) (hre : Reach a) : Paired a := by
  induction hre with
  | init => exact paired_newAuth
  | challenge a sid fresh _ ih => exact paired_k1BySessionID a sid fresh ih
  | login verify a k1 key sig _ ih => exact paired_login verify a k1 key sig ih
  | logout a sid ih ihp => exact paired_logout a sid ihp

/-- C8: in every reachable store state the two challenge mappings only
ever exist as partners of one another, and a challenge issuance either
fails leaving the store exactly as it was, or succeeds with both the
`k1 → sessionID` and the `sessionID → k1` mapping present for the
returned `k1`. -/
theorem challenge_insertion_atomic (a : AuthState) (hre : Reach a) :
    Paired a ∧
    ∀ sid fresh : String,
      (∀ e, (k1BySessionID a sid fresh).2 = .error e →
        (k1BySessionID a sid fresh).1 = a) ∧
      (∀ k1, (k1BySessionID a sid fresh).2 = .ok k1 →
        (k1BySessionID a sid fresh).1.challengeCache k1 = some sid ∧
        (k1BySessionID a sid fresh).1.reverseChallengeCache sid = some k1) := by
  have hp : Paired a := reach_paired a hre
  refine ⟨hp, fun sid fresh => ⟨?_, ?_⟩⟩
  · intro e he
    cases hrv : a.reverseChallengeCache sid with
    | some k0 => rw [k1BySessionID_existing a sid fresh k0 hrv]
    | none =>
      cases hcc : a.challengeCache fresh with
      | some s0 => rw [k1BySessionID_collision a sid fresh s0 hrv hcc]
      | none =>
        rw [k1BySessionID_fresh a sid fresh hrv hcc] at he
        simp at he
  · intro k1 hk1
    cases hrv : a.reverseChallengeCache sid with
    | some k0 =>
      rw [k1BySessionID_existing a sid fresh k0 hrv] at hk1 ⊢
      obtain rfl : k0 = k1 := by simpa using hk1
      exact ⟨(hp k0 sid).mpr hrv, hrv⟩
    | none =>
      cases hcc : a.challengeCache fresh with
      | some s0 =>
        rw [k1BySessionID_collision a sid fresh s0 hrv hcc] at hk1
        simp at hk1
      | none =>
        rw [k1BySessionID_fresh a sid fresh hrv hcc] at hk1 ⊢
        obtain rfl : fresh = k1 := by simpa using hk1
        exact ⟨by simp [Cache.set], by simp [Cache.set]⟩

theorem challenge_insertion_atomic_witness :
    Paired (k1BySessionID NewAuth "sess" "chal").1 ∧
    (k1BySessionID (k1BySessionID NewAuth "sess" "chal").1 "sess2"
        "chal2").1.challengeCache "chal2" = some "sess2" ∧
    (k1BySessionID (k1BySessionID NewAuth "sess" "chal").1 "sess2"
        "chal2").1.reverseChallengeCache "sess2" = some "chal2" := by
  have h := challenge_insertion_atomic (k1BySessionID NewAuth "sess" "chal").1
    (Reach.challenge NewAuth "sess" "chal" Reach.init)
  have h2 := (h.2 "sess2" "chal2").2 "chal2" rfl
  exact ⟨h.1, h2.1, h2.2⟩

/-- C2 (violation in the two-cache draft's `Auth.Login` handler): with an
empty challenge cache — so `k1` resolves to no session — and a signature
that verifies over the attacker-chosen `k1` and key (the verifier
parameter returns `true`, as `lnurl.VerifySignature` does for a
self-signed challenge), the handler falls through past both error
responses and binds the attacker's linking key under the empty-string
session id.  This is an unauthenticated write to the
`sessionID → linkingKey` mapping from a `Login` whose `k1` did not
resolve to any session. -/
theorem draft6_login_unauthenticated_write :
    (LoginHandlerDraft6 (fun _ _ _ => .ok true) ⟨Cache.empty, Cache.empty⟩
        "login" "selfchosen-k1" "attacker-key" "attacker-sig").1.sessionCache
        "" = some "attacker-key" ∧
    (LoginHandlerDraft6 (fun _ _ _ => .ok true) ⟨Cache.empty, Cache.empty⟩
        "login" "selfchosen-k1" "attacker-key" "attacker-sig").2 =
      [errResp 400 "no session id found for this k1 challenge",
        errResp 500 "unexpected session id with invalid type", okResp] := by
  exact ⟨rfl, rfl⟩

/-- C3 (violation in `LNURLAuth.Login` of `cmd/server/internal/auth.go`):
when signature verification returns `false` the handler writes the
invalid-signature error response and then, lacking a `return`, also
writes the `{status: "OK"}` success response on the same request — a
failed login that reports success. -/
theorem internal_login_invalid_signature_reports_success :
    LoginHandlerInternal (fun _ _ _ => .ok false) "login" "some-k1"
        "some-key" "bad-sig" =
      [errResp 400 "invalid signature", okResp] := rfl

/-- C5 (violation in `Auth.Middleware`): with session `"abc"` recognized
by the store (its linking key is `"key1"`), a request carrying the cookie
`"abc"` gets the constant string `"session_id"` — not `"abc"` — as its
context session id; a request carrying an unrecognized cookie keeps it
(no fresh session id is minted and no cookie is set), unlike a request
with no cookie, which gets a fresh session id. -/
theorem middleware_constant_session_id :
    (Middleware ⟨Cache.empty.set "abc" "key1", Cache.empty, Cache.empty⟩
        (some "abc") "freshid").ctxSessionID = some "session_id" ∧
    (Middleware ⟨Cache.empty.set "abc" "key1", Cache.empty, Cache.empty⟩
        (some "abc") "freshid").ctxSessionID ≠ some "abc" ∧
    (Middleware ⟨Cache.empty.set "abc" "key1", Cache.empty, Cache.empty⟩
        (some "unknown") "freshid").newCookie = none ∧
    (Middleware ⟨Cache.empty.set "abc" "key1", Cache.empty, Cache.empty⟩
        (some "unknown") "freshid").ctxSessionID = some "session_id" ∧
    (Middleware ⟨Cache.empty.set "abc" "key1", Cache.empty, Cache.empty⟩
        none "freshid").newCookie = some "freshid" := by
  refine ⟨rfl, ?_, rfl, rfl, rfl⟩
  decide

/-- C6 counterexample: under the path-collecting primitives, the hashing
key the code derives (`m/138'/0`, final step at raw index `0`) differs
from the node the claim describes (a hardened child at index `0`, i.e.
raw index `0x80000000`). -/
theorem hashing_key_not_hardened_counterexample :
    hashingKey freeEnv [] ≠ hashingKeySpecHardened freeEnv [] ∧
    hashingKey freeEnv [] = some ⟨[firstHardenedChild + 138, 0]⟩ ∧
    hashingKeySpecHardened freeEnv [] =
      some ⟨[firstHardenedChild + 138, firstHardenedChild]⟩ := by
  refine ⟨?_, rfl, rfl⟩
  decide

/-- C6 amended: the hashing key is obtained by deriving a *non-hardened*
child at index `0` from the hardened auth node at reserved index `138`
under the master key: its derivation path is
`[0x80000000 + 138, 0]`, whose first step is hardened (index at least
`FirstHardenedChild`) and whose second step, index `0`, is below
`FirstHardenedChild`. -/
theorem hashing_key_path (seed : List Nat) :
    hashingKey freeEnv seed = some ⟨[firstHardenedChild + 138, 0]⟩ ∧
    firstHardenedChild ≤ firstHardenedChild + 138 ∧
    0 < firstHardenedChild := by
  refine ⟨rfl, Nat.le_add_right _ _, ?_⟩
  decide

/-- C7: the derived key pair is a deterministic function of the seed and
the domain alone — evaluating the derivation twice yields the same
result, and the key-pair component of the client's identity computation
does not depend on the process randomness stream, which is consumed only
by the signing step. -/
theorem deriveLinkingKey_deterministic {κ π σ : Type} (env : DeriveEnv κ π)
    (sign : SignPrim π σ) (r1 r2 : RandStream) (seed : List Nat)
    (domain : String) (k1Bytes : List Nat) :
    deriveLinkingKey env seed domain = deriveLinkingKey env seed domain ∧
    Option.map Prod.fst (authIdentity env sign r1 seed domain k1Bytes) =
      Option.map Prod.fst (authIdentity env sign r2 seed domain k1Bytes) := by
  refine ⟨rfl, ?_⟩
  unfold authIdentity
  cases deriveLinkingKey env seed domain <;> rfl

end LnurlAuth
